import Mathlib

/-!
Shallow embedding of the `resources` crate: a type-indexed container whose
slots are protected by a non-blocking try-only reader/writer lock.

The lock (`src/lock.rs`, `ResourcesRwLock`) keeps a single signed counter:
`0` is Free, `-1` is Exclusive, anything else is Shared.  Panicking branches
of the lock operations are modelled by `Option` (`none` = panic).
-/

inductive LockState
  | Free
  | Exclusive
  | Shared
deriving DecidableEq, Repr

/-- `ResourcesRwLock::state`: `0 => Free`, `-1 => Exclusive`, `_ => Shared`. -/
def lockState (c : Int) : LockState :=
  if c = 0 then .Free
  else if c = -1 then .Exclusive
  else .Shared

/-- `ResourcesRwLock::try_lock_shared`: succeeds (counter `+= 1`) unless the
state is Exclusive; returns the success flag and the new counter. -/
def try_lock_shared (c : Int) : Bool × Int :=
  match lockState c with
  | .Free => (true, c + 1)
  | .Exclusive => (false, c)
  | .Shared => (true, c + 1)

/-- `ResourcesRwLock::unlock_shared`: only valid in the Shared state
(counter `-= 1`); the other two branches panic (`none`). -/
def unlock_shared (c : Int) : Option Int :=
  match lockState c with
  | .Free => none
  | .Exclusive => none
  | .Shared => some (c - 1)

/-- `ResourcesRwLock::try_lock_exclusive`: succeeds (counter `:= -1`) only
from the Free state; returns the success flag and the new counter. -/
def try_lock_exclusive (c : Int) : Bool × Int :=
  match lockState c with
  | .Free => (true, -1)
  | .Exclusive => (false, c)
  | .Shared => (false, c)

/-- `ResourcesRwLock::unlock_exclusive`: only valid in the Exclusive state
(counter `:= 0`); the other two branches panic (`none`). -/
def unlock_exclusive (c : Int) : Option Int :=
  match lockState c with
  | .Free => none
  | .Exclusive => some 0
  | .Shared => none

/-- One call on a single lock: a successful try-acquire or a non-panicking
release; `none` when the acquire fails or the release would panic. -/
inductive LockOp
  | acqShared
  | relShared
  | acqExclusive
  | relExclusive
deriving DecidableEq, Repr

def lockStep (c : Int) : LockOp → Option Int
  | .acqShared => if (try_lock_shared c).1 then some (try_lock_shared c).2 else none
  | .relShared => unlock_shared c
  | .acqExclusive => if (try_lock_exclusive c).1 then some (try_lock_exclusive c).2 else none
  | .relExclusive => unlock_exclusive c

/-- Run a sequence of lock operations, stopping (`none`) at the first failed
acquire or panicking release. -/
def runLock (c : Int) : List LockOp → Option Int
  | [] => some c
  | op :: ops => (lockStep c op).bind (fun c' => runLock c' ops)

/-- A non-overlapping acquire/release pair: the acquisition is released
before anything else happens on the lock. -/
inductive AcqKind
  | shared
  | exclusive
deriving DecidableEq, Repr

def acquireReleasePair : AcqKind → List LockOp
  | .shared => [.acqShared, .relShared]
  | .exclusive => [.acqExclusive, .relExclusive]

def nonOverlappingOps : List AcqKind → List LockOp
  | [] => []
  | k :: ks => acquireReleasePair k ++ nonOverlappingOps ks

lemma lockState_free {c : Int} (h : c = 0) : lockState c = .Free := by
  simp [lockState, h]

lemma lockState_exclusive {c : Int} (h : c = -1) : lockState c = .Exclusive := by
  simp [lockState, h]

lemma lockState_shared {c : Int} (h0 : c ≠ 0) (h1 : c ≠ -1) : lockState c = .Shared := by
  simp [lockState, h0, h1]

lemma lockStep_preserves_inv {c c' : Int} (h : -1 ≤ c) (op : LockOp)
    (hs : lockStep c op = some c') : -1 ≤ c' := by
  rcases op with _ | _ | _ | _ <;>
    simp only [lockStep, try_lock_shared, unlock_shared, try_lock_exclusive,
      unlock_exclusive] at hs <;>
    rcases hc : lockState c with _ | _ | _ <;>
    rw [hc] at hs <;>
    simp at hs <;>
    first
      | omega
      | (have h0 : c ≠ 0 := by intro h'; rw [lockState_free h'] at hc; cases hc
         have h1 : c ≠ -1 := by intro h'; rw [lockState_exclusive h'] at hc; cases hc
         omega)

lemma runLock_preserves_inv (ops : List LockOp) :
    ∀ c c' : Int, -1 ≤ c → runLock c ops = some c' → -1 ≤ c' := by
  induction ops with
  | nil =>
    intro c c' h hr
    simp [runLock] at hr
    omega
  | cons op ops ih =>
    intro c c' h hr
    simp only [runLock, Option.bind_eq_some] at hr
    obtain ⟨c₁, h₁, h₂⟩ := hr
    exact ih c₁ c' (lockStep_preserves_inv h op h₁) h₂

lemma runLock_append (l₁ l₂ : List LockOp) (c : Int) :
    runLock c (l₁ ++ l₂) = (runLock c l₁).bind (fun c' => runLock c' l₂) := by
  induction l₁ generalizing c with
  | nil => simp [runLock]
  | cons op ops ih =>
    simp only [List.cons_append, runLock]
    rcases lockStep c op with _ | c₁ <;> simp [ih]

/-- C3: `try_lock_shared` succeeds and increments the counter by one iff the
state is Free or Shared (Free with counter 0 becomes Shared(1), Shared(n)
becomes Shared(n+1)); it fails and leaves the counter unchanged iff the
state is Exclusive. -/
theorem try_lock_shared_spec (c : Int) (h : -1 ≤ c) :
    (lockState c = .Free ∨ lockState c = .Shared ↔
      try_lock_shared c = (true, c + 1) ∧ lockState (c + 1) = .Shared) ∧
    (lockState c = .Exclusive ↔ try_lock_shared c = (false, c)) := by
  rcases eq_or_ne c 0 with h0 | h0
  · subst h0
    constructor
    · simp [try_lock_shared, lockState]
    · simp [try_lock_shared, lockState]
  · rcases eq_or_ne c (-1) with h1 | h1
    · subst h1
      constructor
      · simp [try_lock_shared, lockState]
      · simp [try_lock_shared, lockState]
    · have hs : lockState c = .Shared := lockState_shared h0 h1
      have hgt : 1 ≤ c := by omega
      constructor
      · constructor
        · intro _
          refine ⟨by simp [try_lock_shared, hs], ?_⟩
          exact lockState_shared (by omega) (by omega)
        · intro _
          exact Or.inr hs
      · constructor
        · intro hcon
          rw [hs] at hcon
          cases hcon
        · intro hcon
          simp [try_lock_shared, hs] at hcon

/-- Witness for C3 at concrete counters 0 (Free), 3 (Shared) and -1
(Exclusive). -/
theorem try_lock_shared_spec_witness :
    (try_lock_shared 0 = (true, 1) ∧ lockState 1 = .Shared) ∧
    (try_lock_shared 3 = (true, 4) ∧ lockState 4 = .Shared) ∧
    try_lock_shared (-1) = (false, -1) :=
  ⟨((try_lock_shared_spec 0 (by decide)).1).mp (Or.inl (by decide)),
   ((try_lock_shared_spec 3 (by decide)).1).mp (Or.inr (by decide)),
   ((try_lock_shared_spec (-1) (by decide)).2).mp (by decide)⟩

/-- C4: every counter reachable from the Free state (0) by successful
acquires and non-panicking releases is 0 (Free), -1 (Exclusive), or a
positive reader count; the shared count never goes negative and no other
counter value is reachable. -/
theorem lock_counter_reachable (ops : List LockOp) (c' : Int)
    (h : runLock 0 ops = some c') :
    c' = 0 ∨ c' = -1 ∨ 0 < c' := by
  have := runLock_preserves_inv ops 0 c' (by omega) h
  omega

/-- Witness for C4: a concrete run (two shared acquires, two shared
releases, one exclusive acquire) ends at counter -1, a reachable value. -/
theorem lock_counter_reachable_witness :
    runLock 0 [LockOp.acqShared, .acqShared, .relShared, .relShared, .acqExclusive]
        = some (-1) ∧
      ((-1 : Int) = 0 ∨ (-1 : Int) = -1 ∨ (0 : Int) < -1) :=
  ⟨by decide,
   lock_counter_reachable
     [LockOp.acqShared, .acqShared, .relShared, .relShared, .acqExclusive] (-1) (by decide)⟩

/-- C7: any finite concatenation of non-overlapping acquire/release pairs,
started from the Free state, runs without panic and ends in the Free state
(counter 0). -/
theorem nonOverlapping_pairs_end_free (ks : List AcqKind) :
    runLock 0 (nonOverlappingOps ks) = some 0 := by
  induction ks with
  | nil => rfl
  | cons k ks ih =>
    have hpair : runLock 0 (acquireReleasePair k) = some 0 := by
      cases k <;> rfl
    rw [nonOverlappingOps, runLock_append, hpair]
    exact ih

/-!
The container (`src/map.rs`, `Resources`): a map from type identity
(modelled as `Nat`) to a lock-protected type-erased slot.  The invariant
that a slot keyed by `T` always holds a value of type `T` is enforced by
construction in the source (downcasts always succeed), so a slot is
modelled as a lock counter together with the stored value.
Guard construction (`src/refs.rs`, `Ref::from_lock` / `RefMut::from_lock`)
returns the value and the slot with its lock acquired.
-/

inductive InvalidBorrow
  | Mutable
  | Immutable
deriving DecidableEq, Repr

inductive CantGetResource
  | InvalidBorrow : InvalidBorrow → CantGetResource
  | NoSuchResource : CantGetResource
deriving DecidableEq, Repr

structure Slot (V : Type) where
  counter : Int
  value : V
deriving DecidableEq, Repr

def Resources (V : Type) : Type := Nat → Option (Slot V)

def Resources.empty (V : Type) : Resources V := fun _ => none

def Resources.update {V : Type} (r : Resources V) (t : Nat) (s : Option (Slot V)) :
    Resources V :=
  fun k => if k = t then s else r k

/-- `Ref::from_lock`: `try_read` on the slot's lock; on success a shared
guard (the value, and the slot with one more reader); on failure
`InvalidBorrow::Immutable`. -/
def Ref.from_lock {V : Type} (s : Slot V) : Except InvalidBorrow (V × Slot V) :=
  if (try_lock_shared s.counter).1 then
    .ok (s.value, ⟨(try_lock_shared s.counter).2, s.value⟩)
  else .error .Immutable

/-- `RefMut::from_lock`: `try_write` on the slot's lock; on success an
exclusive guard; on failure `InvalidBorrow::Mutable`. -/
def RefMut.from_lock {V : Type} (s : Slot V) : Except InvalidBorrow (V × Slot V) :=
  if (try_lock_exclusive s.counter).1 then
    .ok (s.value, ⟨(try_lock_exclusive s.counter).2, s.value⟩)
  else .error .Mutable

/-- `Resources::get`: look the slot up by type identity, then try a shared
acquisition.  Returns the result together with the container state after
the call. -/
def Resources.get {V : Type} (r : Resources V) (t : Nat) :
    Except CantGetResource V × Resources V :=
  match r t with
  | none => (.error .NoSuchResource, r)
  | some s =>
    match Ref.from_lock s with
    | .ok (v, s') => (.ok v, r.update t (some s'))
    | .error e => (.error (.InvalidBorrow e), r)

/-- `Resources::get_mut`: look the slot up, then try an exclusive
acquisition. -/
def Resources.get_mut {V : Type} (r : Resources V) (t : Nat) :
    Except CantGetResource V × Resources V :=
  match r t with
  | none => (.error .NoSuchResource, r)
  | some s =>
    match RefMut.from_lock s with
    | .ok (v, s') => (.ok v, r.update t (some s'))
    | .error e => (.error (.InvalidBorrow e), r)

/-- `Resources::insert`: replace the slot for `t` by a freshly Free-locked
slot holding `v`; return the previous value, if any, alongside the new
container. -/
def Resources.insert {V : Type} (r : Resources V) (t : Nat) (v : V) :
    Option V × Resources V :=
  ((r t).map Slot.value, r.update t (some ⟨0, v⟩))

/-- `Resources::remove`: delete the slot for `t`; return its value, if it
existed, alongside the new container. -/
def Resources.remove {V : Type} (r : Resources V) (t : Nat) :
    Option V × Resources V :=
  ((r t).map Slot.value, r.update t none)

/-- Dropping an exclusive guard on the slot for `t`: `unlock_exclusive` on
its lock (`none` = the panicking branch, unreachable for a live guard). -/
def Resources.dropExclusive {V : Type} (r : Resources V) (t : Nat) :
    Option (Resources V) :=
  match r t with
  | none => none
  | some s => (unlock_exclusive s.counter).map (fun c' => r.update t (some ⟨c', s.value⟩))

/-- C1: `get` fails with `NoSuchResource` when no slot exists; fails with
`InvalidBorrow::Immutable`, container unchanged, when the slot is
Exclusive; otherwise succeeds with the stored value and the slot's reader
count one higher. -/
theorem get_spec {V : Type} (r : Resources V) (t : Nat) :
    (r t = none → r.get t = (.error .NoSuchResource, r)) ∧
    (∀ s : Slot V, r t = some s → lockState s.counter = .Exclusive →
      r.get t = (.error (.InvalidBorrow .Immutable), r)) ∧
    (∀ s : Slot V, r t = some s → lockState s.counter ≠ .Exclusive →
      r.get t = (.ok s.value, r.update t (some ⟨s.counter + 1, s.value⟩))) := by
  refine ⟨?_, ?_, ?_⟩
  · intro h
    simp [Resources.get, h]
  · intro s hs hx
    simp [Resources.get, hs, Ref.from_lock, try_lock_shared, hx]
  · intro s hs hx
    rcases hc : lockState s.counter with _ | _ | _
    · simp [Resources.get, hs, Ref.from_lock, try_lock_shared, hc]
    · exact absurd hc hx
    · simp [Resources.get, hs, Ref.from_lock, try_lock_shared, hc]

/-- Witness for C1: absent slot, exclusively held slot, and free slot, each
at a concrete container. -/
theorem get_spec_witness :
    ((Resources.empty Nat).get 0 = (.error .NoSuchResource, Resources.empty Nat)) ∧
    (((Resources.empty Nat).update 0 (some ⟨-1, 7⟩)).get 0
      = (.error (.InvalidBorrow .Immutable), (Resources.empty Nat).update 0 (some ⟨-1, 7⟩))) ∧
    (((Resources.empty Nat).update 0 (some ⟨0, 7⟩)).get 0
      = (.ok 7, ((Resources.empty Nat).update 0 (some ⟨0, 7⟩)).update 0 (some ⟨0 + 1, 7⟩))) :=
  ⟨(get_spec (Resources.empty Nat) 0).1 rfl,
   (get_spec ((Resources.empty Nat).update 0 (some ⟨-1, 7⟩)) 0).2.1 ⟨-1, 7⟩ rfl (by decide),
   (get_spec ((Resources.empty Nat).update 0 (some ⟨0, 7⟩)) 0).2.2 ⟨0, 7⟩ rfl (by decide)⟩

/-- C2: `get_mut` fails with `NoSuchResource` when no slot exists; fails
with `InvalidBorrow::Mutable`, container unchanged, when the slot is Shared
or Exclusive; otherwise (slot Free) succeeds with the stored value and the
slot's lock transitioned to Exclusive (counter -1). -/
theorem get_mut_spec {V : Type} (r : Resources V) (t : Nat) :
    (r t = none → r.get_mut t = (.error .NoSuchResource, r)) ∧
    (∀ s : Slot V, r t = some s →
      (lockState s.counter = .Shared ∨ lockState s.counter = .Exclusive) →
      r.get_mut t = (.error (.InvalidBorrow .Mutable), r)) ∧
    (∀ s : Slot V, r t = some s → lockState s.counter = .Free →
      r.get_mut t = (.ok s.value, r.update t (some ⟨-1, s.value⟩)) ∧
        lockState (-1) = .Exclusive) := by
  refine ⟨?_, ?_, ?_⟩
  · intro h
    simp [Resources.get_mut, h]
  · intro s hs hx
    rcases hx with hx | hx <;>
      simp [Resources.get_mut, hs, RefMut.from_lock, try_lock_exclusive, hx]
  · intro s hs hx
    refine ⟨?_, by decide⟩
    simp [Resources.get_mut, hs, RefMut.from_lock, try_lock_exclusive, hx]

/-- Witness for C2: absent slot, shared slot, exclusive slot, and free
slot, each at a concrete container. -/
theorem get_mut_spec_witness :
    ((Resources.empty Nat).get_mut 0 = (.error .NoSuchResource, Resources.empty Nat)) ∧
    (((Resources.empty Nat).update 0 (some ⟨2, 7⟩)).get_mut 0
      = (.error (.InvalidBorrow .Mutable), (Resources.empty Nat).update 0 (some ⟨2, 7⟩))) ∧
    (((Resources.empty Nat).update 0 (some ⟨-1, 7⟩)).get_mut 0
      = (.error (.InvalidBorrow .Mutable), (Resources.empty Nat).update 0 (some ⟨-1, 7⟩))) ∧
    (((Resources.empty Nat).update 0 (some ⟨0, 7⟩)).get_mut 0
      = (.ok 7, ((Resources.empty Nat).update 0 (some ⟨0, 7⟩)).update 0 (some ⟨-1, 7⟩))) :=
  ⟨(get_mut_spec (Resources.empty Nat) 0).1 rfl,
   (get_mut_spec ((Resources.empty Nat).update 0 (some ⟨2, 7⟩)) 0).2.1 ⟨2, 7⟩ rfl
     (Or.inl (by decide)),
   (get_mut_spec ((Resources.empty Nat).update 0 (some ⟨-1, 7⟩)) 0).2.1 ⟨-1, 7⟩ rfl
     (Or.inr (by decide)),
   ((get_mut_spec ((Resources.empty Nat).update 0 (some ⟨0, 7⟩)) 0).2.2 ⟨0, 7⟩ rfl
     (by decide)).1⟩

lemma update_update {V : Type} (r : Resources V) (t : Nat) (a b : Option (Slot V)) :
    (r.update t a).update t b = r.update t b := by
  funext k
  by_cases hk : k = t <;> simp [Resources.update, hk]

/-- C5: `insert` leaves a Free-locked slot holding `v`, an immediately
following `get` or `get_mut` succeeds and observes exactly `v`, and the
prior value is returned iff a slot already existed. -/
theorem insert_spec {V : Type} (r : Resources V) (t : Nat) (v : V) :
    (r.insert t v).2 t = some ⟨0, v⟩ ∧
    lockState (0 : Int) = .Free ∧
    ((r.insert t v).2.get t).1 = .ok v ∧
    ((r.insert t v).2.get_mut t).1 = .ok v ∧
    (r t = none → (r.insert t v).1 = none) ∧
    (∀ s : Slot V, r t = some s → (r.insert t v).1 = some s.value) := by
  refine ⟨?_, by decide, ?_, ?_, ?_, ?_⟩
  · simp [Resources.insert, Resources.update]
  · simp [Resources.insert, Resources.get, Resources.update, Ref.from_lock,
      try_lock_shared, lockState]
  · simp [Resources.insert, Resources.get_mut, Resources.update, RefMut.from_lock,
      try_lock_exclusive, lockState]
  · intro h
    simp [Resources.insert, h]
  · intro s hs
    simp [Resources.insert, hs]

/-- Witness for C5: insert into an empty container returns no prior value;
insert over an existing slot returns the prior value; the new slot is
observed by `get`. -/
theorem insert_spec_witness :
    (((Resources.empty Nat).insert 0 5).2 0 = some ⟨0, 5⟩) ∧
    ((((Resources.empty Nat).insert 0 5).2.get 0).1 = .ok 5) ∧
    (((Resources.empty Nat).insert 0 5).1 = none) ∧
    ((((Resources.empty Nat).update 0 (some ⟨0, 3⟩)).insert 0 5).1 = some 3) :=
  ⟨(insert_spec (Resources.empty Nat) 0 5).1,
   (insert_spec (Resources.empty Nat) 0 5).2.2.1,
   (insert_spec (Resources.empty Nat) 0 5).2.2.2.2.1 rfl,
   (insert_spec ((Resources.empty Nat).update 0 (some ⟨0, 3⟩)) 0 5).2.2.2.2.2 ⟨0, 3⟩ rfl⟩

/-- C6: `remove` on an absent type returns `none` and leaves the container
unchanged; on a present type it returns the stored value, a subsequent
`get` fails with `NoSuchResource`, and every other slot is unchanged. -/
theorem remove_spec {V : Type} (r : Resources V) (t : Nat) :
    (r t = none → r.remove t = (none, r)) ∧
    (∀ s : Slot V, r t = some s →
      (r.remove t).1 = some s.value ∧
      ((r.remove t).2.get t).1 = .error .NoSuchResource ∧
      ∀ k : Nat, k ≠ t → (r.remove t).2 k = r k) := by
  constructor
  · intro h
    have h2 : r.update t none = r := by
      funext k
      by_cases hk : k = t
      · subst hk
        simp [Resources.update, h]
      · simp [Resources.update, hk]
    simp [Resources.remove, h, h2]
  · intro s hs
    refine ⟨by simp [Resources.remove, hs], ?_, ?_⟩
    · simp [Resources.remove, Resources.get, Resources.update]
    · intro k hk
      simp [Resources.remove, Resources.update, hk]

/-- Witness for C6: remove from an empty container is a no-op returning
`none`; remove of a present slot returns its value, a following `get`
fails with `NoSuchResource`, and a different key is untouched. -/
theorem remove_spec_witness :
    ((Resources.empty Nat).remove 0 = (none, Resources.empty Nat)) ∧
    ((((Resources.empty Nat).update 0 (some ⟨0, 9⟩)).remove 0).1 = some 9) ∧
    (((((Resources.empty Nat).update 0 (some ⟨0, 9⟩)).remove 0).2.get 0).1
      = .error .NoSuchResource) ∧
    ((((Resources.empty Nat).update 0 (some ⟨0, 9⟩)).remove 0).2 1
      = ((Resources.empty Nat).update 0 (some ⟨0, 9⟩)) 1) :=
  ⟨(remove_spec (Resources.empty Nat) 0).1 rfl,
   ((remove_spec ((Resources.empty Nat).update 0 (some ⟨0, 9⟩)) 0).2 ⟨0, 9⟩ rfl).1,
   ((remove_spec ((Resources.empty Nat).update 0 (some ⟨0, 9⟩)) 0).2 ⟨0, 9⟩ rfl).2.1,
   ((remove_spec ((Resources.empty Nat).update 0 (some ⟨0, 9⟩)) 0).2 ⟨0, 9⟩ rfl).2.2 1
     (by decide)⟩

/-!
The entry API (`src/map.rs`, `Entry` / `OccupiedEntry` / `VacantEntry`).
Occupied-branch operations acquire the slot's lock and panic
(`expect("entry API assumes unique access")`) when the acquisition fails;
the panic is modelled by `none`.
-/

/-- `OccupiedEntry::get`: `Ref::from_lock` on the entry's slot, panicking
(`none`) when the shared acquisition fails. -/
def OccupiedEntry.get {V : Type} (s : Slot V) : Option (V × Slot V) :=
  (Ref.from_lock s).toOption

/-- `OccupiedEntry::get_mut`: `RefMut::from_lock` on the entry's slot,
panicking (`none`) when the exclusive acquisition fails. -/
def OccupiedEntry.get_mut {V : Type} (s : Slot V) : Option (V × Slot V) :=
  (RefMut.from_lock s).toOption

/-- `OccupiedEntry::into_mut`: like `get_mut`, but the guard's lifetime is
tied to the container rather than the entry. -/
def OccupiedEntry.into_mut {V : Type} (s : Slot V) : Option (V × Slot V) :=
  (RefMut.from_lock s).toOption

/-- `VacantEntry::insert`: put a freshly Free-locked slot holding `v` into
the map, then `RefMut::from_lock` on it (panicking on failure). -/
def VacantEntry.insert {V : Type} (r : Resources V) (t : Nat) (v : V) :
    Option (V × Resources V) :=
  ((RefMut.from_lock (⟨0, v⟩ : Slot V)).toOption).map
    (fun p => (p.1, r.update t (some p.2)))

/-- `Entry::or_insert_with`: occupied => `into_mut`; vacant => insert the
factory's result. -/
def Entry.or_insert_with {V : Type} (r : Resources V) (t : Nat) (f : Unit → V) :
    Option (V × Resources V) :=
  match r t with
  | some s => (OccupiedEntry.into_mut s).map (fun p => (p.1, r.update t (some p.2)))
  | none => VacantEntry.insert r t (f ())

/-- `Entry::or_insert`: `or_insert_with` on a constant factory. -/
def Entry.or_insert {V : Type} (r : Resources V) (t : Nat) (d : V) :
    Option (V × Resources V) :=
  Entry.or_insert_with r t (fun _ => d)

/-- `Entry::or_default`: `or_insert_with` on the type's default value. -/
def Entry.or_default {V : Type} [Inhabited V] (r : Resources V) (t : Nat) :
    Option (V × Resources V) :=
  Entry.or_insert_with r t (fun _ => (default : V))

/-- `Entry::and_modify`: if occupied, take an exclusive guard
(`OccupiedEntry::get_mut`, panicking on failure), apply `f` through it, and
release the guard (`unlock_exclusive`) before the entry is handed back. -/
def Entry.and_modify {V : Type} (r : Resources V) (t : Nat) (f : V → V) :
    Option (Resources V) :=
  match r t with
  | none => some r
  | some s =>
    match OccupiedEntry.get_mut s with
    | none => none
    | some p =>
      (unlock_exclusive p.2.counter).map (fun c' => r.update t (some ⟨c', f p.1⟩))

/-- C9: on an occupied entry whose slot is Free, `OccupiedEntry::get`,
`get_mut` and `into_mut` all succeed (the panicking branch behind
"entry API assumes unique access" is not taken) and return a guard to the
stored value. -/
theorem occupied_entry_free_succeeds {V : Type} (s : Slot V) (h : s.counter = 0) :
    OccupiedEntry.get s = some (s.value, ⟨1, s.value⟩) ∧
    OccupiedEntry.get_mut s = some (s.value, ⟨-1, s.value⟩) ∧
    OccupiedEntry.into_mut s = some (s.value, ⟨-1, s.value⟩) := by
  rcases s with ⟨c, v⟩
  simp only at h
  subst h
  refine ⟨?_, ?_, ?_⟩ <;>
    simp [OccupiedEntry.get, OccupiedEntry.get_mut, OccupiedEntry.into_mut,
      Ref.from_lock, RefMut.from_lock, try_lock_shared, try_lock_exclusive,
      lockState, Except.toOption]

/-- Witness for C9 at a concrete Free slot. -/
theorem occupied_entry_free_succeeds_witness :
    OccupiedEntry.get (⟨0, 4⟩ : Slot Nat) = some (4, ⟨1, 4⟩) ∧
    OccupiedEntry.get_mut (⟨0, 4⟩ : Slot Nat) = some (4, ⟨-1, 4⟩) ∧
    OccupiedEntry.into_mut (⟨0, 4⟩ : Slot Nat) = some (4, ⟨-1, 4⟩) :=
  occupied_entry_free_succeeds ⟨0, 4⟩ rfl

/-- C10: on an occupied entry, `or_insert`, `or_insert_with` and
`or_default` all coincide with `into_mut` of the occupied entry — the
default value and the factory are irrelevant (the factory is never
invoked) — and any guard produced references the already stored value,
which stays unchanged. -/
theorem or_insert_occupied {V : Type} [Inhabited V] (r : Resources V) (t : Nat)
    (s : Slot V) (hs : r t = some s) (d : V) (f : Unit → V) :
    Entry.or_insert r t d
      = (OccupiedEntry.into_mut s).map (fun p => (p.1, r.update t (some p.2))) ∧
    Entry.or_insert_with r t f
      = (OccupiedEntry.into_mut s).map (fun p => (p.1, r.update t (some p.2))) ∧
    Entry.or_default r t
      = (OccupiedEntry.into_mut s).map (fun p => (p.1, r.update t (some p.2))) ∧
    (∀ p : V × Slot V, OccupiedEntry.into_mut s = some p →
      p.1 = s.value ∧ p.2.value = s.value) := by
  refine ⟨?_, ?_, ?_, ?_⟩
  · simp [Entry.or_insert, Entry.or_insert_with, hs]
  · simp [Entry.or_insert_with, hs]
  · simp [Entry.or_default, Entry.or_insert_with, hs]
  · intro p hp
    unfold OccupiedEntry.into_mut RefMut.from_lock at hp
    by_cases hc : (try_lock_exclusive s.counter).1
    · rw [if_pos hc] at hp
      simp only [Except.toOption, Option.some.injEq] at hp
      subst hp
      exact ⟨rfl, rfl⟩
    · rw [if_neg hc] at hp
      simp [Except.toOption] at hp

/-- Witness for C10 at a concrete occupied entry with a Free slot: the
default 99 and factory are ignored, the stored value 6 is returned. -/
theorem or_insert_occupied_witness :
    Entry.or_insert ((Resources.empty Nat).update 0 (some ⟨0, 6⟩)) 0 99
      = (OccupiedEntry.into_mut (⟨0, 6⟩ : Slot Nat)).map
          (fun p => (p.1, ((Resources.empty Nat).update 0 (some ⟨0, 6⟩)).update 0 (some p.2))) ∧
    (∀ p : Nat × Slot Nat, OccupiedEntry.into_mut (⟨0, 6⟩ : Slot Nat) = some p →
      p.1 = 6 ∧ p.2.value = 6) :=
  ⟨(or_insert_occupied ((Resources.empty Nat).update 0 (some ⟨0, 6⟩)) 0 ⟨0, 6⟩ rfl 99
      (fun _ => 99)).1,
   (or_insert_occupied ((Resources.empty Nat).update 0 (some ⟨0, 6⟩)) 0 ⟨0, 6⟩ rfl 99
      (fun _ => 99)).2.2.2⟩

lemma empty_apply {V : Type} (t : Nat) : Resources.empty V t = none := rfl

lemma update_same {V : Type} (r : Resources V) (t : Nat) (a : Option (Slot V)) :
    r.update t a t = a := by
  simp [Resources.update]

/-- C8: on an empty container `entry.or_insert(d)` creates a slot holding
`d` and returns an exclusive guard to it; after the guard is dropped the
slot is Free; `entry.and_modify(f).or_insert(d')` then applies `f` under an
exclusive hold released before `or_insert` runs, so `or_insert` finds the
entry occupied and the final stored value is `f d` — the default `d'` is
never inserted.  In the spec's Bool instance the stored value ends up
`true`. -/
theorem entry_scenario_spec {V : Type} (t : Nat) (d d' : V) (f : V → V) :
    Entry.or_insert (Resources.empty V) t d
      = some (d, (Resources.empty V).update t (some ⟨-1, d⟩)) ∧
    ((Resources.empty V).update t (some ⟨-1, d⟩)).dropExclusive t
      = some ((Resources.empty V).update t (some ⟨0, d⟩)) ∧
    Entry.and_modify ((Resources.empty V).update t (some ⟨0, d⟩)) t f
      = some ((Resources.empty V).update t (some ⟨0, f d⟩)) ∧
    Entry.or_insert ((Resources.empty V).update t (some ⟨0, f d⟩)) t d'
      = some (f d, (Resources.empty V).update t (some ⟨-1, f d⟩)) ∧
    Entry.and_modify ((Resources.empty Bool).update 0 (some ⟨0, false⟩)) 0 (fun _ => true)
      = some ((Resources.empty Bool).update 0 (some ⟨0, true⟩)) ∧
    Entry.or_insert ((Resources.empty Bool).update 0 (some ⟨0, true⟩)) 0 false
      = some (true, (Resources.empty Bool).update 0 (some ⟨-1, true⟩)) := by
  refine ⟨?_, ?_, ?_, ?_, ?_, ?_⟩ <;>
    simp [Entry.or_insert, Entry.or_insert_with, Entry.and_modify, VacantEntry.insert,
      OccupiedEntry.into_mut, OccupiedEntry.get_mut, Resources.dropExclusive,
      RefMut.from_lock, try_lock_exclusive, unlock_exclusive, lockState,
      Except.toOption, empty_apply, update_same, update_update]
